import Mathlib

/-!
Verification model of the HAAS Next Gen Controller postprocessor
(`haasngc_post.py`).  The program translates a tree of FreeCAD path
objects into G-code text.  The definitions below are a shallow embedding
of the source file: module-level configuration globals become a
`Settings` record, the module-level mutable counters (`LINENR`,
`tapSpeed`) become an explicit `EmitState` threaded through every
function, and Python strings/floats become Lean `String`/`ℚ`.

Numeric formatting (`format(x, ".Nf")`, `str(int(x))`) is modelled by
executable decimal printers over `ℚ`; on inputs whose decimal expansion
is exact (all inputs used in witnesses) they agree with CPython.
-/

/-! ## Python-style string helpers -/
/-- Decimal digit character for a value 0..9 (as produced by `str`). -/
def digitChar (d : ℕ) : Char :=
  match d with
  | 0 => '0' | 1 => '1' | 2 => '2' | 3 => '3' | 4 => '4'
  | 5 => '5' | 6 => '6' | 7 => '7' | 8 => '8' | _ => '9'

/-- Decimal digits of a natural number, most significant first (`str(n)`);
`go` is fuel-based structural recursion (the fuel `n + 1` always
suffices since the argument at least halves each step). -/
def natDigits (n : ℕ) : List Char := go (n + 1) n
where
  go : ℕ → ℕ → List Char
    | 0, _ => []
    | fuel + 1, n => if n < 10 then [digitChar n] else go fuel (n / 10) ++ [digitChar (n % 10)]

/-- Python `str` of a natural number. -/
def natStr (n : ℕ) : String := String.mk (natDigits n)

/-- Python `str` of an integer. -/
def intStr (i : ℤ) : String :=
  if i < 0 then "-" ++ natStr i.natAbs else natStr i.natAbs

/-- Python `int(x)` truncation toward zero of a rational (`Int.div` is
T-division and the denominator is positive). -/
def pyTrunc (q : ℚ) : ℤ := Int.tdiv q.num (Int.ofNat q.den)

/-- Round `x * 10 ^ p` to the nearest integer, ties to even (the
rounding used by `format(x, ".Nf")` on exactly representable values),
computed on the numerator and denominator with integer arithmetic. -/
def scaledRHE (x : ℚ) (p : ℕ) : ℤ :=
  let a : ℤ := x.num * Int.ofNat (10 ^ p)
  let b : ℤ := Int.ofNat x.den
  let f : ℤ := Int.fdiv a b
  let rem2 : ℤ := 2 * (a - f * b)
  if rem2 < b then f
  else if b < rem2 then f + 1
  else if f % 2 = 0 then f else f + 1

/-- Python `format(float(x), "." + str(p) + "f")` on a rational value. -/
def fmtFixed (x : ℚ) (p : ℕ) : String :=
  let n : ℤ := scaledRHE x p
  let m : ℕ := n.natAbs
  let ip : ℕ := m / 10 ^ p
  let fp : ℕ := m % 10 ^ p
  let fracDigits : List Char := natDigits fp
  let fracPadded : List Char := List.replicate (p - fracDigits.length) '0' ++ fracDigits
  let core : String :=
    if p = 0 then natStr ip else natStr ip ++ "." ++ String.mk fracPadded
  if n < 0 then "-" ++ core else core

/-- Python `str.upper()` (ASCII letters). -/
def pyUpper (s : String) : String := String.mk (s.data.map Char.toUpper)

/-- True when the first character of the string is an opening parenthesis
(the comment marker test `w[0] == "("` of the source). -/
def firstIsParen (w : String) : Bool :=
  match w.data with
  | '(' :: _ => true
  | _ => false

/-- Characters stripped by Python `str.strip()` in this program. -/
def isStripChar (c : Char) : Bool := c = ' ' ∨ c = '\n' ∨ c = '\t' ∨ c = '\r'

/-- Python `s.strip()` on the character list of a string. -/
def pyStripChars (l : List Char) : List Char :=
  ((l.dropWhile isStripChar).reverse.dropWhile isStripChar).reverse

/-- Python `s.replace("  ", " ")`: left-to-right, non-overlapping. -/
def replace2Space : List Char → List Char
  | ' ' :: ' ' :: t => ' ' :: replace2Space t
  | c :: t => c :: replace2Space t
  | [] => []

/-- Python `s.splitlines(keepends)` restricted to the newline character
(the only line separator this program produces). -/
def pySplitlines (keep : Bool) (s : String) : List String :=
  go s.data []
where
  go : List Char → List Char → List String
    | [], acc => if acc.isEmpty then [] else [String.mk acc.reverse]
    | '\n' :: rest, acc =>
        String.mk (acc.reverse ++ if keep then ['\n'] else []) :: go rest []
    | ch :: rest, acc => go rest (ch :: acc)

/-! ## Configuration resolver (`processArguments`, source lines 206-252)

The module-level preference globals become one `Settings` record built
per call from the built-in defaults, faithful for any sequence of calls
that reuses the same argument string (the only situation the claims
quantify over): a repeated option string re-assigns the same values, so
the converged global state equals the record built from the defaults. -/
structure Settings where
  OUTPUT_COMMENTS : Bool
  OUTPUT_HEADER : Bool
  OUTPUT_LINE_NUMBERS : Bool
  SHOW_EDITOR : Bool
  MODAL : Bool
  USE_TLO : Bool
  OUTPUT_DOUBLES : Bool
  PRECISION : ℕ
  UNITS : String
  UNIT_SPEED_FORMAT : String
  UNIT_FORMAT : String
  PREAMBLE : String
  POSTAMBLE : String
  PRE_OPERATION : String
  POST_OPERATION : String
  TOOL_CHANGE : String
  deriving DecidableEq, Repr

/-- The built-in defaults of the module globals (source lines 91-135). -/
def defaultSettings : Settings where
  OUTPUT_COMMENTS := true
  OUTPUT_HEADER := true
  OUTPUT_LINE_NUMBERS := false
  SHOW_EDITOR := true
  MODAL := true
  USE_TLO := true
  OUTPUT_DOUBLES := false
  PRECISION := 3
  UNITS := "G21"
  UNIT_SPEED_FORMAT := "mm/min"
  UNIT_FORMAT := "mm"
  PREAMBLE := "G17 G54 G40 G49 G80 G90\n"
  POSTAMBLE := "M05\nG53 G0 Z0.000\nG53 G0 X-350.000 Y0.000\nM30\n"
  PRE_OPERATION := ""
  POST_OPERATION := ""
  TOOL_CHANGE := ""

/-- The option set recognized by the argparse parser (source lines 53-86).
`precision` is stored as the raw string argparse delivers. -/
structure Args where
  no_header : Bool
  no_comments : Bool
  line_numbers : Bool
  no_show_editor : Bool
  inches : Bool
  no_modal : Bool
  no_axis_modal : Bool
  no_tlo : Bool
  precision : String
  preamble : Option String
  postamble : Option String
  deriving DecidableEq, Repr

def defaultArgs : Args where
  no_header := false
  no_comments := false
  line_numbers := false
  no_show_editor := false
  inches := false
  no_modal := false
  no_axis_modal := false
  no_tlo := false
  precision := "3"
  preamble := none
  postamble := none

/-- Parse a decimal string to a natural number (used to interpret the
`precision` option; a non-numeric string would make the Python code
raise at the first `format` call, a path no claim exercises). -/
def parseNatStr (s : String) : Option ℕ :=
  go s.data
where
  go : List Char → Option ℕ
    | [] => none
    | l => goAcc l 0
  goAcc : List Char → ℕ → Option ℕ
    | [], acc => some acc
    | c :: t, acc =>
        if '0' ≤ c ∧ c ≤ '9' then goAcc t (acc * 10 + (c.toNat - 48)) else none

/-- Apply a parsed option set to the defaults in source order
(lines 223-247).  In particular `--inches` re-assigns `PRECISION := 4`
after the explicit `precision` option has been stored. -/
def applyArgs (a : Args) : Settings :=
  let s0 := defaultSettings
  let s1 := { s0 with OUTPUT_HEADER := !a.no_header }
  let s2 := { s1 with OUTPUT_COMMENTS := !a.no_comments }
  let s3 := { s2 with OUTPUT_LINE_NUMBERS := a.line_numbers }
  let s4 := { s3 with SHOW_EDITOR := !a.no_show_editor }
  let s5 := { s4 with PRECISION := (parseNatStr a.precision).getD 0 }
  let s6 := match a.preamble with
            | some p => { s5 with PREAMBLE := p }
            | none => s5
  let s7 := match a.postamble with
            | some p => { s6 with POSTAMBLE := p }
            | none => s6
  let s8 := if a.inches then
              { s7 with UNITS := "G20", UNIT_SPEED_FORMAT := "in/min",
                        UNIT_FORMAT := "in", PRECISION := 4 }
            else s7
  let s9 := if a.no_modal then { s8 with MODAL := false } else s8
  let s10 := if a.no_tlo then { s9 with USE_TLO := false } else s9
  if a.no_axis_modal then { s10 with OUTPUT_DOUBLES := true } else s10

/-- Tokenizer model of `shlex.split`: whitespace-separated words with
single or double quoting; `none` models the `ValueError` raised on an
unbalanced quote (backslash escapes, which no claim exercises, are
treated as ordinary characters). -/
def shlexGo : List Char → Option Char → Option (List Char) → List String →
    Option (List String)
  | [], some _, _, _ => none
  | [], none, none, acc => some acc
  | [], none, some w, acc => some (acc ++ [String.mk w])
  | c :: rest, some qc, cur, acc =>
      if c = qc then shlexGo rest none (some (cur.getD [])) acc
      else shlexGo rest (some qc) (some (cur.getD [] ++ [c])) acc
  | c :: rest, none, cur, acc =>
      if c = ' ' ∨ c = '\t' ∨ c = '\n' then
        match cur with
        | none => shlexGo rest none none acc
        | some w => shlexGo rest none none (acc ++ [String.mk w])
      else if c = '\'' ∨ c = '"' then shlexGo rest (some c) (some (cur.getD [])) acc
      else shlexGo rest none (some (cur.getD [] ++ [c])) acc

def pyShlexSplit (s : String) : Option (List String) :=
  shlexGo s.data none none []

/-- List-prefix test on strings (used for `--opt=value` forms). -/
def strIsPre (pre s : String) : Bool := pre.data.isPrefixOf s.data

def strDropN (n : ℕ) (s : String) : String := String.mk (s.data.drop n)

/-- The argparse recognition step: fold the token list into `Args`.
`none` models the parse error on which argparse calls `sys.exit`
(raising `SystemExit`).  Options taking a value accept both the
separate-token and the `=`-joined spelling. -/
def applyTok : List String → Args → Option Args
  | [], a => some a
  | t :: r, a =>
    if t = "--no-header" then applyTok r { a with no_header := true }
    else if t = "--no-comments" then applyTok r { a with no_comments := true }
    else if t = "--line-numbers" then applyTok r { a with line_numbers := true }
    else if t = "--no-show-editor" then applyTok r { a with no_show_editor := true }
    else if t = "--inches" then applyTok r { a with inches := true }
    else if t = "--no-modal" then applyTok r { a with no_modal := true }
    else if t = "--no-axis-modal" then applyTok r { a with no_axis_modal := true }
    else if t = "--no-tlo" then applyTok r { a with no_tlo := true }
    else if t = "--precision" then
      match r with
      | v :: r2 => applyTok r2 { a with precision := v }
      | [] => none
    else if strIsPre "--precision=" t then
      applyTok r { a with precision := strDropN 12 t }
    else if t = "--preamble" then
      match r with
      | v :: r2 => applyTok r2 { a with preamble := some v }
      | [] => none
    else if strIsPre "--preamble=" t then
      applyTok r { a with preamble := some (strDropN 11 t) }
    else if t = "--postamble" then
      match r with
      | v :: r2 => applyTok r2 { a with postamble := some v }
      | [] => none
    else if strIsPre "--postamble=" t then
      applyTok r { a with postamble := some (strDropN 12 t) }
    else none

/-- Outcome of `processArguments`.  `caught` is the `return False` path:
an exception derived from `Exception` (e.g. the `ValueError` of
`shlex.split`) lands in the `except Exception` handler.  `exit` is the
path the handler does NOT cover: on an unrecognized or malformed option
argparse calls `sys.exit`, raising `SystemExit`, which derives from
`BaseException` but not from `Exception`, so it escapes the handler and
propagates out of `export`. -/
inductive PAOut where
  | ok (S : Settings)
  | caught
  | exit
  deriving DecidableEq, Repr

def processArgumentsM (argstring : String) : PAOut :=
  match pyShlexSplit argstring with
  | none => .caught
  | some toks =>
    match applyTok toks defaultArgs with
    | none => .exit
    | some a => .ok (applyArgs a)

/-! ## Data model: commands, path objects, emission state -/
/-- A command parameter map: parameter letter to numeric value (Python
dict of floats; lookup order is irrelevant to the program). -/
abbrev Params := List (String × ℚ)

def getP (ps : Params) (k : String) : Option ℚ :=
  (ps.find? (fun e => e.1 = k)).map (fun e => e.2)

/-- A path command: mnemonic plus parameters. -/
structure Command where
  Name : String
  Parameters : Params
  deriving DecidableEq, Repr

/-- A leaf path object with the attributes the translator reads.
Optional fields model `hasattr` probing: `none` means the attribute is
absent.  `ToolShapeName` models `pathobj.Tool.ShapeName` (its access
raises `AttributeError` when absent), `TCToolType` models the
`hasattr(pathobj, "ToolController")`-guarded
`pathobj.ToolController.Tool.ToolType`. -/
structure Leaf where
  Label : String
  Name : String
  Active : Option Bool
  BaseActive : Option Bool
  CoolantMode : Option String
  BaseCoolantMode : Option String
  CycleTime : Option String
  ToolShapeName : Option String
  SpindleSpeed : ℚ
  TCToolType : Option String
  commands : List Command
  deriving DecidableEq, Repr

/-- A top-level object handed to `export`: a path-bearing leaf, or an
object without a `Path` attribute (rejected up front).  Group/compound
objects (source lines 438-443) only concatenate their children and are
not exercised by any claim. -/
inductive PObj where
  | leaf (lf : Leaf)
  | nonpath (name : String)
  deriving DecidableEq, Repr

def hasPathAttr : PObj → Bool
  | .leaf _ => true
  | .nonpath _ => false

def objActive : PObj → Option Bool
  | .leaf lf => lf.Active
  | .nonpath _ => none

def objBaseActive : PObj → Option Bool
  | .leaf lf => lf.BaseActive
  | .nonpath _ => none

def objLabel : PObj → String
  | .leaf lf => lf.Label
  | .nonpath n => n

def objCycleTime : PObj → Option String
  | .leaf lf => lf.CycleTime
  | .nonpath _ => none

/-- Effective coolant mode (source lines 312-317): the object attribute,
else the referenced base attribute, else `"None"`. -/
def effCoolant : PObj → String
  | .leaf lf =>
      match lf.CoolantMode with
      | some m => m
      | none => match lf.BaseCoolantMode with
                | some m => m
                | none => "None"
  | .nonpath _ => "None"

/-- The module-level mutable emission counters: `LINENR` (line number)
and `tapSpeed` (spindle speed carried into the rigid-tap rewrite).
They are process-wide globals in the source; modelling carries them
explicitly through every call. -/
structure EmitState where
  LINENR : ℤ
  tapSpeed : ℤ
  deriving DecidableEq, Repr

/-- The values of the globals at module import time (lines 101, 115). -/
def initState : EmitState := ⟨5, 0⟩

/-- Source `linenumber()` (lines 391-396): with line numbering enabled
it increments the counter by 5 and returns the prefix
`"N<counter> "`; otherwise it returns the empty string unchanged. -/
def linenumber (S : Settings) (g : EmitState) : String × EmitState :=
  if S.OUTPUT_LINE_NUMBERS then
    ("N" ++ intStr (g.LINENR + 5) ++ " ", ⟨g.LINENR + 5, g.tapSpeed⟩)
  else ("", g)

/-- Multiply a rational by the ratio `m / d` (`d ≠ 0`), building the
result with `Rat.divInt` (kept away from `Rat.mul`, whose definition
does not reduce inside the kernel). -/
def qmulDiv (v : ℚ) (m : ℤ) (d : ℤ) : ℚ :=
  Rat.divInt (v.num * m) (Int.ofNat v.den * d)

/-- Internal length values are millimetres;
`Units.Quantity(v, Length).getValueAs(UNIT_FORMAT)` divides by 25.4
(= 127/5) in imperial mode. -/
def lengthAs (S : Settings) (v : ℚ) : ℚ :=
  if S.UNIT_FORMAT = "in" then qmulDiv v 5 127 else v

/-- Internal velocity values are millimetres per second;
`getValueAs(UNIT_SPEED_FORMAT)` converts to the per-minute unit
(×60, and in imperial mode a further division by 25.4). -/
def speedAs (S : Settings) (v : ℚ) : ℚ :=
  if S.UNIT_SPEED_FORMAT = "in/min" then qmulDiv v 300 127 else qmulDiv v 60 1

/-- The `currLocation` dict: parameter letter to last stored value. -/
def CurrLoc := String → Option ℚ

def emptyLoc : CurrLoc := fun _ => none

/-- Python `dict.update`: keys of `ps` override. -/
def updLoc (loc : CurrLoc) (ps : Params) : CurrLoc :=
  fun k => match getP ps k with
           | some v => some v
           | none => loc k

/-- `firstmove` (source line 435): the pre-seed of `currLocation`. -/
def firstmove : Command :=
  ⟨"G0", [("X", -1), ("Y", -1), ("Z", -1), ("F", 0)]⟩

def seedLoc : CurrLoc := updLoc emptyLoc firstmove.Parameters

/-- The `out` accumulator.  It is a Python *string* until the
comment-suppressed `message` branch executes `out = []`, after which it
is a list (of characters, since `list += str` extends element-wise).
Method calls that lists lack then raise. -/
inductive PyBuf where
  | str (s : String)
  | list (l : List Char)
  deriving DecidableEq, Repr

/-- Python `out += t` on either shape of the accumulator. -/
def PyBuf.append : PyBuf → String → PyBuf
  | .str s, t => .str (s ++ t)
  | .list l, t => .list (l ++ t.data)

/-- The per-`parse` loop state: the accumulator, `lastcommand`,
`currLocation`, and the global counters. -/
structure PState where
  out : PyBuf
  lastcommand : Option String
  loc : CurrLoc
  g : EmitState

/-- The ordered parameter alphabet (source lines 416-434). -/
def paramsOrder : List String :=
  ["X", "Y", "Z", "A", "B", "C", "I", "J", "F", "S", "T", "Q", "R", "L", "H", "D", "P"]

/-- One iteration of the parameter loop (source lines 565-608): the
token appended to `outstring` for parameter `p`, or `none` when the
parameter is suppressed.  `F` is emitted in the speed unit and dropped
on rapids or non-positive speeds; `T,H,I,J,D,S` are truncated integers;
everything else is a length quantity under duplicate-axis
suppression. -/
def paramToken (S : Settings) (c : Command) (loc : CurrLoc) (p : String) : Option String :=
  match getP c.Parameters p with
  | none => none
  | some v =>
    if p = "F" ∧ (loc "F" ≠ some v ∨ S.OUTPUT_DOUBLES = true) then
      if c.Name = "G0" ∨ c.Name = "G00" then none
      else
        let speed := speedAs S v
        if 0 < speed then some ("F" ++ fmtFixed speed S.PRECISION) else none
    else if p = "T" ∨ p = "H" ∨ p = "I" ∨ p = "J" ∨ p = "D" ∨ p = "S" then
      some (p ++ intStr (pyTrunc v))
    else
      if S.OUTPUT_DOUBLES = false ∧ loc p = some v then none
      else some (p ++ fmtFixed (lengthAs S v) S.PRECISION)

/-- The full parameter loop: tokens in alphabet order. -/
def buildParams (S : Settings) (c : Command) (loc : CurrLoc) : List String :=
  paramsOrder.filterMap (paramToken S c loc)

/-- One iteration of the X/Y and Z/R loops of the tap-cycle rewrite
(source lines 487-504 and 512-529): a `" <letter><value>"` chunk under
duplicate-axis suppression, converted to the length unit. -/
def axisChunk (S : Settings) (c : Command) (loc : CurrLoc) (p : String) : String :=
  match getP c.Parameters p with
  | none => ""
  | some v =>
    if S.OUTPUT_DOUBLES = false ∧ loc p = some v then ""
    else " " ++ p ++ fmtFixed (lengthAs S v) S.PRECISION

/-- One iteration of the F/P/Q loop of the tap-cycle rewrite (source
lines 533-543): always emitted, converted as a length quantity. -/
def convChunk (S : Settings) (c : Command) (p : String) : String :=
  match getP c.Parameters p with
  | none => ""
  | some v => " " ++ p ++ fmtFixed (lengthAs S v) S.PRECISION

/-- The drill-to-tap rewrite (source lines 484-548), applied to a G81 or
G83 command on a tap-type tool: G95, an optional G00 X/Y positioning
line, the un-numbered M29 tap-start line (note: no `linenumber()` call
on line 510), the G84 line whose parameter string still contains the
X/Y chunk (never cleared after the G00 line), then G80 and G94.
`lastcommand` and `currLocation` are left untouched (the branch ends in
`continue` before the state update). -/
def tapRewrite (S : Settings) (c : Command) (st : PState) : PState :=
  let p1 := linenumber S st.g
  let out1 := st.out.append (p1.1 ++ "G95\n")
  let ps1 := axisChunk S c st.loc "X" ++ axisChunk S c st.loc "Y"
  let p2 := if ps1 = "" then (out1, p1.2)
            else
              let n2 := linenumber S p1.2
              (out1.append (n2.1 ++ "G00" ++ ps1 ++ "\n"), n2.2)
  let ts : ℤ := match getP c.Parameters "S" with
                | some v => pyTrunc v
                | none => p2.2.tapSpeed
  let g3 : EmitState := ⟨p2.2.LINENR, ts⟩
  let out3 := p2.1.append ("M29 S" ++ intStr ts ++ "\n")
  let ps2 := ps1 ++ axisChunk S c st.loc "Z" ++ axisChunk S c st.loc "R"
             ++ convChunk S c "F" ++ convChunk S c "P" ++ convChunk S c "Q"
  let p4 := linenumber S g3
  let out4 := out3.append (p4.1 ++ "G84" ++ ps2 ++ "\n")
  let p5 := linenumber S p4.2
  let out5 := out4.append (p5.1 ++ "G80\n")
  let p6 := linenumber S p5.2
  let out6 := out5.append (p6.1 ++ "G94\n")
  ⟨out6, st.lastcommand, st.loc, p6.2⟩

/-- The line-finalization block (source lines 634-643): if `outstring`
is non-empty, optionally insert a line-number token (not for comment
lines), join the upper-cased tokens with trailing spaces onto the
accumulator, then `out = out.strip() + "\n"` and
`out = out.replace("  ", " ")`.  Both string methods raise
`AttributeError` when the accumulator has become a list. -/
def emitBlock (S : Settings) (buf : PyBuf) (outstring : List String) (g : EmitState) :
    Except String (PyBuf × EmitState) :=
  match outstring with
  | [] => .ok (buf, g)
  | w0 :: _ =>
    let p :=
      if S.OUTPUT_LINE_NUMBERS ∧ ¬ firstIsParen w0 then
        let n := linenumber S g
        (n.1 :: outstring, n.2)
      else (outstring, g)
    let buf1 := p.1.foldl (fun b w => b.append (pyUpper w ++ " ")) buf
    match buf1 with
    | .str s => .ok (.str (String.mk (replace2Space (pyStripChars s.data ++ ['\n']))), p.2)
    | .list _ => .error "AttributeError"

/-- The tool-change block (source lines 614-626): spindle stop `M5`, the
configured tool-change text (each line through `linenumber()`), the
`M6 T<n>` line, and — with tool-length-offset enabled — `G43 H<n>`.
The parameters built into `outstring` beforehand are discarded by the
`continue`; the missing-`T` `KeyError` is modelled as an error. -/
def m6Block (S : Settings) (c : Command) (loc' : CurrLoc) (st : PState) :
    Except String PState :=
  let p1 := linenumber S st.g
  let out1 := st.out.append (p1.1 ++ "M5\n")
  let p2 := (pySplitlines true S.TOOL_CHANGE).foldl
      (fun (p : PyBuf × EmitState) line =>
        let n := linenumber S p.2
        (p.1.append (n.1 ++ line), n.2))
      (out1, p1.2)
  match getP c.Parameters "T" with
  | none => .error "KeyError"
  | some t =>
    let p3 := linenumber S p2.2
    let out3 := p2.1.append (p3.1 ++ "M6 T" ++ intStr (pyTrunc t) ++ "\n")
    if S.USE_TLO then
      let p4 := linenumber S p3.2
      .ok ⟨out3.append (p4.1 ++ "G43 H" ++ intStr (pyTrunc t) ++ "\n"),
           some c.Name, loc', p4.2⟩
    else .ok ⟨out3, some c.Name, loc', p3.2⟩

/-- The ordinary translation path of one command (source lines 550-644):
mnemonic with modal suppression, the G80-between-twins suppression, the
comment filter, the parameter loop, the state update, then the
tool-change / message special cases and the line finalization. -/
def mainPath (S : Settings) (c : Command) (next : String) (st : PState) :
    Except String PState :=
  let outstring0 : List String :=
    if S.MODAL = true ∧ st.lastcommand = some c.Name then [] else [c.Name]
  if c.Name = "G80" ∧ st.lastcommand = some next then .ok st
  else if firstIsParen c.Name = true ∧ S.OUTPUT_COMMENTS = false then .ok st
  else
    let outstring1 := outstring0 ++ buildParams S c st.loc
    let loc' := updLoc st.loc c.Parameters
    if c.Name = "M6" then m6Block S c loc' st
    else if c.Name = "message" then
      if S.OUTPUT_COMMENTS = false then
        -- out = [] (source line 630): the accumulator becomes a list
        match emitBlock S (PyBuf.list []) outstring1 st.g with
        | .error e => .error e
        | .ok r => .ok ⟨r.1, some c.Name, loc', r.2⟩
      else
        -- outstring.pop(0) (source line 632); IndexError when empty
        match outstring1 with
        | [] => .error "IndexError"
        | _ :: rest =>
          match emitBlock S st.out rest st.g with
          | .error e => .error e
          | .ok r => .ok ⟨r.1, some c.Name, loc', r.2⟩
    else
      match emitBlock S st.out outstring1 st.g with
      | .error e => .error e
      | .ok r => .ok ⟨r.1, some c.Name, loc', r.2⟩

/-- Translation of one command of a leaf (the body of the `for` loop of
`parse`, source lines 458-644): the Fixture rapid suppression, the
spindle-start capture on tap tools, the drill-to-tap rewrite, then the
ordinary path. -/
def processCommand (S : Settings) (lf : Leaf) (c : Command) (next : String)
    (st : PState) : Except String PState :=
  if lf.Label = "Fixture" ∧ c.Name = "G0" then .ok st
  else if c.Name = "M03" ∨ c.Name = "M3" then
    match lf.ToolShapeName with
    | none => .error "AttributeError"
    | some sn =>
      if sn = "tap" then
        .ok ⟨st.out, st.lastcommand, st.loc, ⟨st.g.LINENR, pyTrunc lf.SpindleSpeed⟩⟩
      else if (c.Name = "G81" ∨ c.Name = "G83") ∧ lf.TCToolType = some "Tap" then
        .ok (tapRewrite S c st)
      else mainPath S c next st
  else if (c.Name = "G81" ∨ c.Name = "G83") ∧ lf.TCToolType = some "Tap" then
    .ok (tapRewrite S c st)
  else mainPath S c next st

/-- The command loop of `parse` with the look-ahead `nextcommand`. -/
def runCommands (S : Settings) (lf : Leaf) : List Command → PState → Except String PState
  | [], st => .ok st
  | c :: rest, st =>
    let next := match rest with
                | [] => ""
                | c2 :: _ => c2.Name
    match processCommand S lf c next st with
    | .error e => .error e
    | .ok st' => runCommands S lf rest st'

/-- `parse` on a simple path (source lines 399-436 and 444-645): fresh
`lastcommand`/`currLocation` (pre-seeded from `firstmove`), fresh empty
string accumulator, then the command loop. -/
def parseLeaf (S : Settings) (lf : Leaf) (g : EmitState) :
    Except String (PyBuf × EmitState) :=
  match runCommands S lf lf.commands ⟨.str "", none, seedLoc, g⟩ with
  | .error e => .error e
  | .ok st => .ok (st.out, st.g)

/-- `parse` on an arbitrary object: non-path objects yield the empty
string (source lines 447-448).  A leaf whose accumulator ends up as a
list would make the caller crash on `gcode += parse(obj)`
(`TypeError`). -/
def parsePObj (S : Settings) (o : PObj) (g : EmitState) :
    Except String (String × EmitState) :=
  match o with
  | .nonpath _ => .ok ("", g)
  | .leaf lf =>
    match parseLeaf S lf g with
    | .error e => .error e
    | .ok (.str s, g') => .ok (s, g')
    | .ok (.list _, _) => .error "TypeError"

/-! ## Export (source lines 255-388) -/
/-- Fold a list of text lines into the output through `linenumber()`.
`addNl` distinguishes the `splitlines(False)`+`"\n"` preamble loop from
the keepends loops. -/
def lnFold (S : Settings) (addNl : Bool) (lines : List String)
    (init : String × EmitState) : String × EmitState :=
  lines.foldl
    (fun (p : String × EmitState) line =>
      let n := linenumber S p.2
      (p.1 ++ n.1 ++ line ++ (if addNl then "\n" else ""), n.2))
    init

/-- The operation-begin comments (source lines 301-307). -/
def opComments (S : Settings) (o : PObj) : String :=
  if S.OUTPUT_COMMENTS then
    "(BEGIN OPERATION: " ++ pyUpper (objLabel o) ++ ")\n" ++
    (match objCycleTime o with
     | some t => "(CYCLE TIME: " ++ t ++ ")\n"
     | none => "")
  else ""

/-- The operation-end comment (source lines 332-333). -/
def opFinish (S : Settings) (o : PObj) : String :=
  if S.OUTPUT_COMMENTS then
    "(FINISH OPERATION: " ++ pyUpper (objLabel o) ++ ")\n"
  else ""

/-- Coolant-on comment and M8/M7 lines (source lines 319-326). -/
def coolantOn (S : Settings) (o : PObj) (p1 : String × EmitState) :
    String × EmitState :=
  let cm := effCoolant o
  let c2 := p1.1 ++
    (if S.OUTPUT_COMMENTS = true ∧ cm ≠ "None" then
      "(COOLANT ON:" ++ pyUpper cm ++ ")\n"
    else "")
  let p2 := if cm = "Flood" then
              let n := linenumber S p1.2
              (c2 ++ n.1 ++ "M8" ++ "\n", n.2)
            else (c2, p1.2)
  if cm = "Mist" then
    let n := linenumber S p2.2
    (p2.1 ++ n.1 ++ "M7" ++ "\n", n.2)
  else p2

/-- Coolant-off comment and M9 line (source lines 337-341). -/
def coolantOff (S : Settings) (o : PObj) (p5 : String × EmitState) :
    String × EmitState :=
  if effCoolant o ≠ "None" then
    let c6 := p5.1 ++
      (if S.OUTPUT_COMMENTS then
        "(COOLANT OFF:" ++ pyUpper (effCoolant o) ++ ")\n"
      else "")
    let n := linenumber S p5.2
    (c6 ++ n.1 ++ "M9" ++ "\n", n.2)
  else p5

/-- The per-object body of the export loop (source lines 290-341):
skip inactive objects (own or referenced base `Active` flag false),
emit the operation comments, the pre-operation text, the coolant-on
lines, the parsed commands, the post-operation text, and the
coolant-off lines. -/
def exportObject (S : Settings) (o : PObj) (g : EmitState) :
    Except String (String × EmitState) :=
  if objActive o = some false then .ok ("", g)
  else if objBaseActive o = some false then .ok ("", g)
  else
    let p1 := lnFold S false (pySplitlines true S.PRE_OPERATION) (opComments S o, g)
    let p3 := coolantOn S o p1
    match parsePObj S o p3.2 with
    | .error e => .error e
    | .ok (ptxt, g4) =>
      let p5 := lnFold S false (pySplitlines true S.POST_OPERATION)
          (p3.1 ++ ptxt ++ opFinish S o, g4)
      .ok (coolantOff S o p5)

/-- The object loop of `export`. -/
def exportLoop (S : Settings) : List PObj → String × EmitState →
    Except String (String × EmitState)
  | [], acc => .ok acc
  | o :: rest, acc =>
    match exportObject S o acc.2 with
    | .error e => .error e
    | .ok r => exportLoop S rest (acc.1 ++ r.1, r.2)

/-- Result of an `export` call: the returned value (with the final
global counters), or an uncaught exception. -/
inductive PyRet where
  | ok (r : Option String) (g : EmitState)
  | exc (msg : String)
  deriving DecidableEq, Repr

/-- The observable return of `export` (returned text or exception). -/
def PyRet.textPart : PyRet → Except String (Option String)
  | .ok r _ => .ok r
  | .exc m => .error m

/-- The header and preamble-comment block (source lines 274-283). -/
def headerText (S : Settings) (nowStr : String) : String :=
  (if S.OUTPUT_HEADER then
    "%\nO\n(EXPORTED BY FREECAD!)\n(POST PROCESSOR: HAASNGC)\n(OUTPUT TIME: "
      ++ nowStr ++ ")\n"
  else "") ++
  (if S.OUTPUT_COMMENTS then "(BEGIN PREAMBLE)\n" else "")

/-- The `export` entry point (source lines 255-388; named `exportM`
because `export` is reserved in Lean).  `nowStr` is the import-time
timestamp string.  Headless operation is modelled (`FreeCAD.GuiUp`
false), so the editor hook returns the generated text unchanged, and
file writing is outside the model.  An empty object list raises
`IndexError` at `objectslist[0].Label` (source line 288). -/
def exportM (argstring : String) (objs : List PObj) (nowStr : String)
    (g0 : EmitState) : PyRet :=
  match processArgumentsM argstring with
  | .caught => .ok none g0
  | .exit => .exc "SystemExit"
  | .ok S =>
    if objs.any (fun o => !(hasPathAttr o)) then .ok none g0
    else
      let p1 := lnFold S true (pySplitlines false S.PREAMBLE) (headerText S nowStr, g0)
      let nU := linenumber S p1.2
      let p2 := (p1.1 ++ nU.1 ++ S.UNITS ++ "\n", nU.2)
      match objs with
      | [] => .exc "IndexError"
      | _ :: _ =>
        match exportLoop S objs p2 with
        | .error e => .exc e
        | .ok (body, g3) =>
          let p4 := lnFold S false (pySplitlines true S.POSTAMBLE)
              (body ++ (if S.OUTPUT_COMMENTS then "(BEGIN POSTAMBLE)\n" else ""), g3)
          .ok (some (p4.1 ++ "%\n")) p4.2

/-! ## Shared helper lemmas and concrete fixtures -/
deriving instance DecidableEq for Except

/-- A minimal active leaf operation used in concrete evaluations. -/
def demoLeaf : Leaf :=
  ⟨"Op", "Profile", none, none, none, none, none, none, 0, none, [⟨"G1", [("X", 2)]⟩]⟩

/-- The same operation with its `Active` flag false. -/
def inactiveLeaf : Leaf :=
  ⟨"Op", "Profile", some false, none, none, none, none, none, 0, none,
   [⟨"G1", [("X", 2)]⟩]⟩

/-- A leaf whose only command is a `message` pseudo-command. -/
def msgLeaf : Leaf :=
  ⟨"Op", "Msg", none, none, none, none, none, none, 0, none, [⟨"message", []⟩]⟩

/-- A leaf repeating the same command (carrying an integer-formatted
spindle-speed parameter) twice in immediate sequence. -/
def dupSLeaf : Leaf :=
  ⟨"Op", "Profile", none, none, none, none, none, none, 0, none,
   [⟨"G1", [("S", 500)]⟩, ⟨"G1", [("S", 500)]⟩]⟩

def c4cmd : Command := ⟨"G1", [("X", 2)]⟩

/-- The parse state immediately after `c4cmd` was emitted once from the
seed state. -/
def c4st : PState := ⟨.str "G1 X2.000\n", some "G1", updLoc seedLoc [("X", 2)], initState⟩

/-- Scanner for the three-character pattern `G8<d>` in a character list
(the serialized form of the mnemonics G81 and G83). -/
def hasG8d (d : Char) : List Char → Bool
  | [] => false
  | c :: t => (decide (c = 'G' ∧ t.take 2 = ['8', d])) || hasG8d d t

def tapCmd : Command := ⟨"G81", [("X", 5), ("Z", -10), ("F", Rat.divInt 3 2)]⟩

def tapLeaf : Leaf :=
  ⟨"Op", "Drill", none, none, none, none, none, none, 500, some "Tap", [tapCmd]⟩

def tapSt : PState := ⟨.str "", none, seedLoc, ⟨5, 500⟩⟩

def lnSettings : Settings := { defaultSettings with OUTPUT_LINE_NUMBERS := true }

def tapSt6 : PState := ⟨.str "", none, seedLoc, ⟨5, 0⟩⟩

/-- Overwrite the line-number counter, keeping the carried tap speed. -/
def setL (L : ℤ) (g : EmitState) : EmitState := ⟨L, g.tapSpeed⟩

def setLP (L : ℤ) (st : PState) : PState := ⟨st.out, st.lastcommand, st.loc, setL L st.g⟩

/-- Map the returned final state of an `export` call. -/
def mapRet (f : EmitState → EmitState) : PyRet → PyRet
  | .ok r g => .ok r (f g)
  | .exc m => .exc m

def c5objs : List PObj := [.leaf demoLeaf]

def c5run1 : PyRet := exportM "--no-header --line-numbers" c5objs "" initState

def c5run2 : PyRet :=
  match c5run1 with
  | .ok _ g => exportM "--no-header --line-numbers" c5objs "" g
  | e => e

theorem strData_append (a b : String) : (a ++ b).data = a.data ++ b.data := rfl

theorem pyBufAppend_append (b : PyBuf) (s t : String) :
    (b.append s).append t = b.append (s ++ t) := by
  cases b <;> simp [PyBuf.append, String.append_assoc, strData_append]

/-! ## Claim theorems -/
/-- C3: a leaf node whose `Active` flag is `some false`, or whose
referenced base object's `Active` flag is `some false`, contributes no
output lines whatsoever (no comments, no coolant, no commands) and
leaves the emission state untouched; the per-parse state
(`lastcommand`, `currLocation`) is local to `parse`, which is never
invoked for such a node. -/
theorem c3_inactive_skip (S : Settings) (o : PObj) (g : EmitState)
    (h : objActive o = some false ∨ objBaseActive o = some false) :
    exportObject S o g = .ok ("", g) := by
  rcases h with h | h
  · simp [exportObject, h]
  · unfold exportObject
    split
    · rfl
    · simp [h]

theorem c3_witness :
    objActive (.leaf inactiveLeaf) = some false ∧
    exportObject defaultSettings (.leaf inactiveLeaf) initState = .ok ("", initState) :=
  ⟨rfl, c3_inactive_skip _ _ _ (Or.inl rfl)⟩

/-- C7 (code bug): on the well-tokenized but unrecognized option string
`"--bogus"` argparse raises `SystemExit`, which the
`except Exception` handler does not intercept, so `export` terminates
by exception instead of returning the `None` no-result signal; a
tokenization failure (unbalanced quote) is caught and does return
`None`, as does a top-level object without the path-bearing shape (in
both cases before any output). -/
theorem c7_bug_eval :
    exportM "--bogus" [.leaf demoLeaf] "" initState = .exc "SystemExit" ∧
    exportM "\"unclosed" [.leaf demoLeaf] "" initState = .ok none initState ∧
    exportM "" [.nonpath "Stock", .leaf demoLeaf] "" initState = .ok none initState := by
  refine ⟨?_, ?_, ?_⟩ <;> rfl

/-- C8 (code bug): a `message` command with comments suppressed executes
`out = []`, replacing the string accumulator by a list; the
line-finalization `out.strip()` then raises `AttributeError`, so the
whole parse crashes instead of discarding the accumulated output and
restarting.  With comments enabled the mnemonic is popped and the
(empty) remainder emits nothing, as the claim describes. -/
theorem c8_bug_eval :
    parseLeaf { defaultSettings with OUTPUT_COMMENTS := false } msgLeaf initState =
      .error "AttributeError" ∧
    parseLeaf defaultSettings msgLeaf initState = .ok (.str "", initState) :=
  ⟨rfl, rfl⟩

/-- C4 (counterexample): the command `G1 S500` emitted twice in
immediate sequence with the default settings (modal suppression on,
duplicate-axis suppression on) produces the second line `S500` even
though the value of `S` did not change — the claim predicts no second
line at all, i.e. the output `"G1 S500\n"`. -/
theorem c4_counterexample :
    parseLeaf defaultSettings dupSLeaf initState = .ok (.str "G1 S500\nS500\n", initState) ∧
    ("G1 S500\nS500\n" : String) ≠ "G1 S500\n" :=
  ⟨by decide, by decide⟩

/-- C9: any override-option set carrying the imperial flag resolves to
the inch length unit, the inch-per-minute speed unit, the `G20` unit
mode and precision exactly 4 — whatever explicit `precision` string is
also present, since the imperial branch re-assigns `PRECISION` after
the explicit option has been stored. -/
theorem c9_imperial (a : Args) (h : a.inches = true) :
    (applyArgs a).UNIT_FORMAT = "in" ∧ (applyArgs a).UNIT_SPEED_FORMAT = "in/min" ∧
    (applyArgs a).PRECISION = 4 ∧ (applyArgs a).UNITS = "G20" := by
  unfold applyArgs
  cases hpre : a.preamble <;> cases hpost : a.postamble <;>
    simp only [h, if_true, ite_true] <;>
    (repeat' split) <;> simp

theorem c9_witness :
    ({ defaultArgs with inches := true, precision := "7" } : Args).inches = true ∧
    ((applyArgs { defaultArgs with inches := true, precision := "7" }).UNIT_FORMAT = "in" ∧
     (applyArgs { defaultArgs with inches := true, precision := "7" }).UNIT_SPEED_FORMAT = "in/min" ∧
     (applyArgs { defaultArgs with inches := true, precision := "7" }).PRECISION = 4 ∧
     (applyArgs { defaultArgs with inches := true, precision := "7" }).UNITS = "G20") :=
  ⟨rfl, c9_imperial _ rfl⟩

/-- C2: a tool-change command `M6` carrying `T = t`, with the
tool-change text block empty (the default), emits exactly the
spindle-stop line `M5`, the line `M6 T<n>`, and — only when
tool-length-offset is enabled — the line `G43 H<n>` with the same
truncated tool number; no other parameter of the command reaches the
output (the pending `outstring` tokens are discarded), while
`lastcommand` and `currLocation` are still updated. -/
theorem c2_tool_change (S : Settings) (lf : Leaf) (c : Command) (next : String)
    (st : PState) (t : ℚ)
    (hname : c.Name = "M6") (hT : getP c.Parameters "T" = some t)
    (htc : S.TOOL_CHANGE = "") :
    processCommand S lf c next st =
      (let p1 := linenumber S st.g
       let p3 := linenumber S p1.2
       let out3 := (st.out.append (p1.1 ++ "M5\n")).append
           (p3.1 ++ "M6 T" ++ intStr (pyTrunc t) ++ "\n")
       if S.USE_TLO then
         let p4 := linenumber S p3.2
         .ok ⟨out3.append (p4.1 ++ "G43 H" ++ intStr (pyTrunc t) ++ "\n"),
              some c.Name, updLoc st.loc c.Parameters, p4.2⟩
       else .ok ⟨out3, some c.Name, updLoc st.loc c.Parameters, p3.2⟩) := by
  simp [processCommand, mainPath, m6Block, hname, htc, hT, pySplitlines,
        pySplitlines.go, firstIsParen]

theorem c2_witness :
    (⟨"M6", [("T", 5)]⟩ : Command).Name = "M6" ∧
    getP (⟨"M6", [("T", 5)]⟩ : Command).Parameters "T" = some 5 ∧
    defaultSettings.TOOL_CHANGE = "" ∧
    processCommand defaultSettings demoLeaf ⟨"M6", [("T", 5)]⟩ ""
        ⟨.str "", none, seedLoc, initState⟩ =
      (let p1 := linenumber defaultSettings initState
       let p3 := linenumber defaultSettings p1.2
       let out3 := ((PyBuf.str "").append (p1.1 ++ "M5\n")).append
           (p3.1 ++ "M6 T" ++ intStr (pyTrunc 5) ++ "\n")
       if defaultSettings.USE_TLO then
         let p4 := linenumber defaultSettings p3.2
         .ok ⟨out3.append (p4.1 ++ "G43 H" ++ intStr (pyTrunc 5) ++ "\n"),
              some "M6", updLoc seedLoc [("T", 5)], p4.2⟩
       else .ok ⟨out3, some "M6", updLoc seedLoc [("T", 5)], p3.2⟩) :=
  ⟨rfl, by decide, rfl, c2_tool_change _ _ _ _ _ _ rfl (by decide) rfl⟩

/-- Every token the parameter loop appends begins with the parameter
letter itself: the emitted token is the letter followed by the
formatted value in every branch. -/
theorem paramToken_split (S : Settings) (c : Command) (loc : CurrLoc) (p : String)
    (t : String) (h : paramToken S c loc p = some t) : ∃ r, t = p ++ r := by
  unfold paramToken at h
  rcases hv : getP c.Parameters p with _ | v <;> rw [hv] at h <;> (try dsimp only at h)
  · exact absurd h (by simp)
  · split at h
    case isTrue hF =>
      split at h
      · exact absurd h (by simp)
      · split at h
        · exact ⟨_, by rw [hF.1]; exact (Option.some.inj h).symm⟩
        · exact absurd h (by simp)
    case isFalse =>
      split at h
      · exact ⟨_, (Option.some.inj h).symm⟩
      · split at h
        · exact absurd h (by simp)
        · exact ⟨_, (Option.some.inj h).symm⟩

theorem paramToken_headChar (S : Settings) (c : Command) (loc : CurrLoc)
    (p : String) (ch : Char) (hp : p.data = [ch]) (t : String)
    (h : paramToken S c loc p = some t) : t.data.head? = some ch := by
  obtain ⟨r, rfl⟩ := paramToken_split S c loc p t h
  rw [strData_append, hp]
  rfl

theorem single_char_ne {q : String} {qc pc : Char} (hq : q.data = [qc])
    (hne : q ≠ String.mk [pc]) : qc ≠ pc := by
  intro h
  apply hne
  cases q with
  | mk d => cases hq; cases h; rfl

/-- C10: `currLocation` is pre-seeded from the `firstmove` command with
`X = Y = Z = -1` and `F = 0`, so with duplicate-axis suppression
enabled a command whose `X`, `Y` or `Z` parameter equals `-1` (in
internal units) has that parameter dropped from the parameter loop
against the seed state — no emitted token begins with that letter —
although no line carrying `-1` was ever emitted. -/
theorem c10_seed_suppression (S : Settings) (c : Command) (pc : Char)
    (hp : pc = 'X' ∨ pc = 'Y' ∨ pc = 'Z')
    (hv : getP c.Parameters (String.mk [pc]) = some (-1))
    (hd : S.OUTPUT_DOUBLES = false) :
    (seedLoc "X" = some (-1) ∧ seedLoc "Y" = some (-1) ∧
     seedLoc "Z" = some (-1) ∧ seedLoc "F" = some 0) ∧
    ∀ t ∈ buildParams S c seedLoc, t.data.head? ≠ some pc := by
  refine ⟨⟨by decide, by decide, by decide, by decide⟩, ?_⟩
  intro t ht
  rw [buildParams, List.mem_filterMap] at ht
  obtain ⟨q, hq, hqt⟩ := ht
  by_cases hqp : q = String.mk [pc]
  · subst hqp
    have hnone : paramToken S c seedLoc (String.mk [pc]) = none := by
      rcases hp with rfl | rfl | rfl
      · have hsx : seedLoc (String.mk ['X']) = some (-1) := by decide
        simp [paramToken, hv, hd, hsx]
      · have hsy : seedLoc (String.mk ['Y']) = some (-1) := by decide
        simp [paramToken, hv, hd, hsy]
      · have hsz : seedLoc (String.mk ['Z']) = some (-1) := by decide
        simp [paramToken, hv, hd, hsz]
    rw [hnone] at hqt
    exact absurd hqt (by simp)
  · simp only [paramsOrder, List.mem_cons, List.not_mem_nil, or_false] at hq
    rcases hq with rfl | rfl | rfl | rfl | rfl | rfl | rfl | rfl | rfl | rfl | rfl |
      rfl | rfl | rfl | rfl | rfl | rfl <;>
      (rw [paramToken_headChar S c seedLoc _ _ rfl _ hqt]
       exact fun hcon => single_char_ne rfl hqp (Option.some.inj hcon))

theorem c10_witness :
    getP ([("X", -1), ("Y", 2)] : Params) (String.mk ['X']) = some (-1) ∧
    defaultSettings.OUTPUT_DOUBLES = false ∧
    ((seedLoc "X" = some (-1) ∧ seedLoc "Y" = some (-1) ∧
      seedLoc "Z" = some (-1) ∧ seedLoc "F" = some 0) ∧
     ∀ t ∈ buildParams defaultSettings ⟨"G1", [("X", -1), ("Y", 2)]⟩ seedLoc,
       t.data.head? ≠ some 'X') :=
  ⟨by decide, rfl, c10_seed_suppression _ _ _ (Or.inl rfl) (by decide) rfl⟩

theorem updLoc_getP {loc : CurrLoc} {ps : Params} {p : String} {v : ℚ}
    (h : getP ps p = some v) : updLoc loc ps p = some v := by simp [updLoc, h]

/-- C4 (amended): with modal suppression and duplicate-axis suppression
both enabled, re-processing through the ordinary formatting path a
command that carries no integer-formatted parameter letter
(S,T,H,I,J,D) and whose mnemonic equals `lastcommand` while all its
parameter values equal the current-location values, emits no line at
all: the output buffer and the emission counters are unchanged (only
`lastcommand`/`currLocation` are re-stored).  The original claim fails
for integer-formatted letters, which are re-emitted even when
unchanged (see the counterexample). -/
theorem c4_amended (S : Settings) (lf : Leaf) (c : Command) (next : String)
    (st : PState)
    (hm : S.MODAL = true) (hd : S.OUTPUT_DOUBLES = false)
    (hlast : st.lastcommand = some c.Name)
    (hloc : ∀ p v, getP c.Parameters p = some v → st.loc p = some v)
    (hint : ∀ p ∈ (["S", "T", "H", "I", "J", "D"] : List String),
      getP c.Parameters p = none)
    (hfix : ¬(lf.Label = "Fixture" ∧ c.Name = "G0"))
    (hm3 : c.Name ≠ "M03" ∧ c.Name ≠ "M3")
    (htap : ¬((c.Name = "G81" ∨ c.Name = "G83") ∧ lf.TCToolType = some "Tap"))
    (hg80 : c.Name ≠ "G80") (hm6 : c.Name ≠ "M6") (hmsg : c.Name ≠ "message")
    (hpar : firstIsParen c.Name = false) :
    processCommand S lf c next st =
      .ok ⟨st.out, some c.Name, updLoc st.loc c.Parameters, st.g⟩ := by
  have hbp : buildParams S c st.loc = [] := by
    rw [buildParams]
    refine List.filterMap_eq_nil_iff.mpr ?_
    intro p hp
    rcases hv : getP c.Parameters p with _ | v
    · simp [paramToken, hv]
    · have hl := hloc p v hv
      by_cases hi : p ∈ (["S", "T", "H", "I", "J", "D"] : List String)
      · rw [hint p hi] at hv; cases hv
      · by_cases hpf : p = "F"
        · subst hpf
          simp [paramToken, hv, hl, hd]
        · have h1 : ¬(p = "T" ∨ p = "H" ∨ p = "I" ∨ p = "J" ∨ p = "D" ∨ p = "S") := by
            intro hcon
            apply hi
            simp only [List.mem_cons, List.not_mem_nil, or_false]
            tauto
          simp [paramToken, hv, hpf, h1, hl, hd]
  unfold processCommand
  rw [if_neg hfix]
  rw [if_neg (fun h => Or.elim h hm3.1 hm3.2)]
  rw [if_neg htap]
  unfold mainPath
  simp [hm, hlast, hg80, hm6, hmsg, hpar, hbp, emitBlock]

theorem c4_witness :
    defaultSettings.MODAL = true ∧ defaultSettings.OUTPUT_DOUBLES = false ∧
    c4st.lastcommand = some c4cmd.Name ∧
    (∀ p ∈ (["S", "T", "H", "I", "J", "D"] : List String),
      getP c4cmd.Parameters p = none) ∧
    processCommand defaultSettings demoLeaf c4cmd "" c4st =
      .ok ⟨c4st.out, some c4cmd.Name, updLoc c4st.loc c4cmd.Parameters, c4st.g⟩ :=
  ⟨rfl, rfl, rfl, by decide,
   c4_amended _ _ _ _ _ rfl rfl rfl (fun _ _ h => updLoc_getP h) (by decide)
     (by decide) ⟨by decide, by decide⟩ (by decide) (by decide) (by decide)
     (by decide) rfl⟩

theorem hasG8d_cons_ne {x : Char} (d : Char) (t : List Char) (h : x ≠ 'G') :
    hasG8d d (x :: t) = hasG8d d t := by
  simp [hasG8d, h]

theorem hasG8d_append_noG {a : List Char} (d : Char) (b : List Char)
    (h : ∀ c ∈ a, c ≠ 'G') : hasG8d d (a ++ b) = hasG8d d b := by
  induction a with
  | nil => rfl
  | cons x t ih =>
    rw [List.cons_append, hasG8d_cons_ne d _ (h x (List.mem_cons_self x t))]
    exact ih (fun c hc => h c (List.mem_cons_of_mem _ hc))

theorem hasG8d_cons_G (d : Char) (t : List Char) (h : t.take 2 ≠ ['8', d]) :
    hasG8d d ('G' :: t) = hasG8d d t := by
  simp [hasG8d, h]

theorem digitChar_ne_G (n : ℕ) : digitChar n ≠ 'G' := by
  unfold digitChar
  split <;> decide

theorem natDigits_go_ne_G (fuel n : ℕ) : ∀ c ∈ natDigits.go fuel n, c ≠ 'G' := by
  induction fuel generalizing n with
  | zero => intro c hc; simp [natDigits.go] at hc
  | succ f ih =>
    intro c hc
    rw [natDigits.go] at hc
    by_cases h10 : n < 10
    · rw [if_pos h10] at hc
      simp only [List.mem_singleton] at hc
      subst hc; exact digitChar_ne_G n
    · rw [if_neg h10, List.mem_append] at hc
      rcases hc with hc | hc
      · exact ih (n / 10) c hc
      · simp only [List.mem_singleton] at hc
        subst hc; exact digitChar_ne_G (n % 10)

theorem natStr_ne_G (n : ℕ) : ∀ c ∈ (natStr n).data, c ≠ 'G' :=
  natDigits_go_ne_G (n + 1) n

theorem ne_G_append {a b : String} (ha : ∀ c ∈ a.data, c ≠ 'G')
    (hb : ∀ c ∈ b.data, c ≠ 'G') : ∀ c ∈ (a ++ b).data, c ≠ 'G' := by
  intro c hc
  rw [strData_append, List.mem_append] at hc
  exact hc.elim (ha c) (hb c)

theorem intStr_ne_G (i : ℤ) : ∀ c ∈ (intStr i).data, c ≠ 'G' := by
  unfold intStr
  split
  · exact ne_G_append (by decide) (natStr_ne_G _)
  · exact natStr_ne_G _

theorem fmtFixed_ne_G (x : ℚ) (p : ℕ) : ∀ c ∈ (fmtFixed x p).data, c ≠ 'G' := by
  unfold fmtFixed
  dsimp only
  have hcore : ∀ c ∈ (if p = 0 then natStr ((scaledRHE x p).natAbs / 10 ^ p)
      else natStr ((scaledRHE x p).natAbs / 10 ^ p) ++ "." ++
        String.mk (List.replicate (p - (natDigits ((scaledRHE x p).natAbs % 10 ^ p)).length) '0'
          ++ natDigits ((scaledRHE x p).natAbs % 10 ^ p))).data, c ≠ 'G' := by
    split
    · exact natStr_ne_G _
    · refine ne_G_append (ne_G_append (natStr_ne_G _) (by decide)) ?_
      intro c hc
      rw [List.mem_append] at hc
      rcases hc with hc | hc
      · rw [List.eq_of_mem_replicate hc]; decide
      · exact natDigits_go_ne_G _ _ c hc
  split
  · exact ne_G_append (by decide) hcore
  · exact hcore

theorem linenumber_ne_G (S : Settings) (g : EmitState) :
    ∀ c ∈ (linenumber S g).1.data, c ≠ 'G' := by
  unfold linenumber
  split
  · exact ne_G_append (ne_G_append (by decide) (intStr_ne_G _)) (by decide)
  · intro c hc; simp at hc

theorem axisChunk_ne_G (S : Settings) (c : Command) (loc : CurrLoc) (p : String)
    (hp : ∀ ch ∈ p.data, ch ≠ 'G') :
    ∀ ch ∈ (axisChunk S c loc p).data, ch ≠ 'G' := by
  unfold axisChunk
  split
  · intro ch hc; simp at hc
  · split
    · intro ch hc; simp at hc
    · exact ne_G_append (ne_G_append (by decide) hp) (fmtFixed_ne_G _ _)

theorem convChunk_ne_G (S : Settings) (c : Command) (p : String)
    (hp : ∀ ch ∈ p.data, ch ≠ 'G') :
    ∀ ch ∈ (convChunk S c p).data, ch ≠ 'G' := by
  unfold convChunk
  split
  · intro ch hc; simp at hc
  · exact ne_G_append (ne_G_append (by decide) hp) (fmtFixed_ne_G _ _)

theorem take2_ne {a b : Char} (rest : List Char) {d : Char} (h : b ≠ d ∨ a ≠ '8') :
    (a :: b :: rest).take 2 ≠ ['8', d] := by
  intro hcon
  have h2 : (a :: b :: rest).take 2 = [a, b] := by simp
  rw [h2] at hcon
  injection hcon with h1 hrest
  injection hrest with hb _
  rcases h with h | h
  · exact h hb
  · exact h h1

theorem hasG8d_tapText (d : Char) (h4 : d ≠ '4') (h0 : d ≠ '0')
    (n1 n2 ps1 ts ps2 n3 n4 n5 : String)
    (hn1 : ∀ c ∈ n1.data, c ≠ 'G') (hn2 : ∀ c ∈ n2.data, c ≠ 'G')
    (hps1 : ∀ c ∈ ps1.data, c ≠ 'G') (hts : ∀ c ∈ ts.data, c ≠ 'G')
    (hps2 : ∀ c ∈ ps2.data, c ≠ 'G')
    (hn3 : ∀ c ∈ n3.data, c ≠ 'G') (hn4 : ∀ c ∈ n4.data, c ≠ 'G')
    (hn5 : ∀ c ∈ n5.data, c ≠ 'G') :
    hasG8d d (n1 ++ "G95\n"
      ++ (if ps1 = "" then "" else n2 ++ "G00" ++ ps1 ++ "\n")
      ++ "M29 S" ++ ts ++ "\n"
      ++ n3 ++ "G84" ++ ps2 ++ "\n" ++ n4 ++ "G80\n" ++ n5 ++ "G94\n").data = false := by
  have e1 : ("G95\n" : String).data = ['G', '9', '5', '\n'] := rfl
  have e2 : ("G00" : String).data = ['G', '0', '0'] := rfl
  have e3 : ("M29 S" : String).data = ['M', '2', '9', ' ', 'S'] := rfl
  have e4 : ("\n" : String).data = ['\n'] := rfl
  have e5 : ("G84" : String).data = ['G', '8', '4'] := rfl
  have e6 : ("G80\n" : String).data = ['G', '8', '0', '\n'] := rfl
  have e7 : ("G94\n" : String).data = ['G', '9', '4', '\n'] := rfl
  have e8 : ("" : String).data = [] := rfl
  by_cases hps : ps1 = ""
  · rw [if_pos hps]
    simp only [strData_append, List.append_assoc, e1, e3, e4, e5, e6, e7, e8,
      List.cons_append, List.nil_append]
    rw [hasG8d_append_noG d _ hn1]
    rw [hasG8d_cons_G d _ (take2_ne _ (Or.inr (by decide)))]
    repeat rw [hasG8d_cons_ne d _ (by decide)]
    rw [hasG8d_append_noG d _ hts]
    repeat rw [hasG8d_cons_ne d _ (by decide)]
    rw [hasG8d_append_noG d _ hn3]
    rw [hasG8d_cons_G d _ (take2_ne _ (Or.inl (fun he => h4 he.symm)))]
    repeat rw [hasG8d_cons_ne d _ (by decide)]
    rw [hasG8d_append_noG d _ hps2]
    repeat rw [hasG8d_cons_ne d _ (by decide)]
    rw [hasG8d_append_noG d _ hn4]
    rw [hasG8d_cons_G d _ (take2_ne _ (Or.inl (fun he => h0 he.symm)))]
    repeat rw [hasG8d_cons_ne d _ (by decide)]
    rw [hasG8d_append_noG d _ hn5]
    rw [hasG8d_cons_G d _ (take2_ne _ (Or.inr (by decide)))]
    repeat rw [hasG8d_cons_ne d _ (by decide)]
    rfl
  · rw [if_neg hps]
    simp only [strData_append, List.append_assoc, e1, e2, e3, e4, e5, e6, e7, e8,
      List.cons_append, List.nil_append]
    rw [hasG8d_append_noG d _ hn1]
    rw [hasG8d_cons_G d _ (take2_ne _ (Or.inr (by decide)))]
    repeat rw [hasG8d_cons_ne d _ (by decide)]
    rw [hasG8d_append_noG d _ hn2]
    rw [hasG8d_cons_G d _ (take2_ne _ (Or.inr (by decide)))]
    repeat rw [hasG8d_cons_ne d _ (by decide)]
    rw [hasG8d_append_noG d _ hps1]
    repeat rw [hasG8d_cons_ne d _ (by decide)]
    rw [hasG8d_append_noG d _ hts]
    repeat rw [hasG8d_cons_ne d _ (by decide)]
    rw [hasG8d_append_noG d _ hn3]
    rw [hasG8d_cons_G d _ (take2_ne _ (Or.inl (fun he => h4 he.symm)))]
    repeat rw [hasG8d_cons_ne d _ (by decide)]
    rw [hasG8d_append_noG d _ hps2]
    repeat rw [hasG8d_cons_ne d _ (by decide)]
    rw [hasG8d_append_noG d _ hn4]
    rw [hasG8d_cons_G d _ (take2_ne _ (Or.inl (fun he => h0 he.symm)))]
    repeat rw [hasG8d_cons_ne d _ (by decide)]
    rw [hasG8d_append_noG d _ hn5]
    rw [hasG8d_cons_G d _ (take2_ne _ (Or.inr (by decide)))]
    repeat rw [hasG8d_cons_ne d _ (by decide)]
    rfl

theorem linenumber_tapSpeed (S : Settings) (g : EmitState) :
    (linenumber S g).2.tapSpeed = g.tapSpeed := by
  unfold linenumber; split <;> rfl

theorem strEmpty_append (s : String) : "" ++ s = s := rfl

theorem strAppend_empty (s : String) : s ++ "" = s := by
  cases s with
  | mk l =>
    show String.mk (l ++ []) = String.mk l
    rw [List.append_nil]

/-- C1: a drill-cycle command G81 or G83 on a leaf whose tool
controller reports a tap-type tool is rewritten into the rigid-tap
sequence: a `G95` feed-per-revolution line, a `G00` positioning line
emitted only when its X/Y parameter string (built under duplicate-axis
suppression) is non-empty, an `M29` tap-start line whose speed is the
carried tap speed unless an `S` parameter on the command overrides it,
a `G84` line with the Z/R chunk (duplicate-axis suppressed) and the
F/P/Q chunk converted to the active length unit (the X/Y chunk is also
repeated there, a detail the claim leaves open), then `G80` and `G94`;
and the emitted text contains neither `G81` nor `G83` anywhere
(`hasG8d` scans for the three-character mnemonics).  `lastcommand` and
`currLocation` are untouched. -/
theorem c1_tap_rewrite (S : Settings) (lf : Leaf) (c : Command) (next : String)
    (st : PState)
    (hname : c.Name = "G81" ∨ c.Name = "G83")
    (htool : lf.TCToolType = some "Tap") :
    (let n1 := linenumber S st.g
     let ps1 := axisChunk S c st.loc "X" ++ axisChunk S c st.loc "Y"
     let n2 := linenumber S n1.2
     let pos2 : EmitState := if ps1 = "" then n1.2 else n2.2
     let ts : ℤ := match getP c.Parameters "S" with
                   | some v => pyTrunc v
                   | none => st.g.tapSpeed
     let ps2 := ps1 ++ axisChunk S c st.loc "Z" ++ axisChunk S c st.loc "R"
                ++ convChunk S c "F" ++ convChunk S c "P" ++ convChunk S c "Q"
     let n3 := linenumber S ⟨pos2.LINENR, ts⟩
     let n4 := linenumber S n3.2
     let n5 := linenumber S n4.2
     let T := n1.1 ++ "G95\n"
              ++ (if ps1 = "" then "" else n2.1 ++ "G00" ++ ps1 ++ "\n")
              ++ "M29 S" ++ intStr ts ++ "\n"
              ++ n3.1 ++ "G84" ++ ps2 ++ "\n" ++ n4.1 ++ "G80\n" ++ n5.1 ++ "G94\n"
     processCommand S lf c next st =
       .ok ⟨st.out.append T, st.lastcommand, st.loc, n5.2⟩ ∧
     hasG8d '1' T.data = false ∧ hasG8d '3' T.data = false) := by
  dsimp only
  have hstep : processCommand S lf c next st = .ok (tapRewrite S c st) := by
    rcases hname with h | h <;> simp [processCommand, h, htool]
  refine ⟨?_, ?_, ?_⟩
  · rw [hstep]
    unfold tapRewrite
    dsimp only
    by_cases hps : (axisChunk S c st.loc "X" ++ axisChunk S c st.loc "Y") = ""
    · rw [if_pos hps, if_pos hps, if_pos hps]
      rcases hS : getP c.Parameters "S" with _ | v <;>
        simp only [hS, linenumber_tapSpeed, strAppend_empty, strEmpty_append,
          pyBufAppend_append, String.append_assoc]
    · rw [if_neg hps, if_neg hps, if_neg hps]
      rcases hS : getP c.Parameters "S" with _ | v <;>
        simp only [hS, linenumber_tapSpeed, pyBufAppend_append, String.append_assoc]
  · exact hasG8d_tapText '1' (by decide) (by decide) _ _ _ _ _ _ _ _
      (linenumber_ne_G _ _) (linenumber_ne_G _ _)
      (ne_G_append (axisChunk_ne_G _ _ _ _ (by decide)) (axisChunk_ne_G _ _ _ _ (by decide)))
      (intStr_ne_G _)
      (ne_G_append (ne_G_append (ne_G_append (ne_G_append (ne_G_append
        (ne_G_append (axisChunk_ne_G _ _ _ _ (by decide)) (axisChunk_ne_G _ _ _ _ (by decide)))
        (axisChunk_ne_G _ _ _ _ (by decide))) (axisChunk_ne_G _ _ _ _ (by decide)))
        (convChunk_ne_G _ _ _ (by decide))) (convChunk_ne_G _ _ _ (by decide)))
        (convChunk_ne_G _ _ _ (by decide)))
      (linenumber_ne_G _ _) (linenumber_ne_G _ _) (linenumber_ne_G _ _)
  · exact hasG8d_tapText '3' (by decide) (by decide) _ _ _ _ _ _ _ _
      (linenumber_ne_G _ _) (linenumber_ne_G _ _)
      (ne_G_append (axisChunk_ne_G _ _ _ _ (by decide)) (axisChunk_ne_G _ _ _ _ (by decide)))
      (intStr_ne_G _)
      (ne_G_append (ne_G_append (ne_G_append (ne_G_append (ne_G_append
        (ne_G_append (axisChunk_ne_G _ _ _ _ (by decide)) (axisChunk_ne_G _ _ _ _ (by decide)))
        (axisChunk_ne_G _ _ _ _ (by decide))) (axisChunk_ne_G _ _ _ _ (by decide)))
        (convChunk_ne_G _ _ _ (by decide))) (convChunk_ne_G _ _ _ (by decide)))
        (convChunk_ne_G _ _ _ (by decide)))
      (linenumber_ne_G _ _) (linenumber_ne_G _ _) (linenumber_ne_G _ _)

theorem c1_witness :
    ((tapCmd.Name = "G81" ∨ tapCmd.Name = "G83") ∧ tapLeaf.TCToolType = some "Tap") ∧
    (let n1 := linenumber defaultSettings tapSt.g
     let ps1 := axisChunk defaultSettings tapCmd tapSt.loc "X" ++
                axisChunk defaultSettings tapCmd tapSt.loc "Y"
     let n2 := linenumber defaultSettings n1.2
     let pos2 : EmitState := if ps1 = "" then n1.2 else n2.2
     let ts : ℤ := match getP tapCmd.Parameters "S" with
                   | some v => pyTrunc v
                   | none => tapSt.g.tapSpeed
     let ps2 := ps1 ++ axisChunk defaultSettings tapCmd tapSt.loc "Z" ++
                axisChunk defaultSettings tapCmd tapSt.loc "R"
                ++ convChunk defaultSettings tapCmd "F" ++ convChunk defaultSettings tapCmd "P"
                ++ convChunk defaultSettings tapCmd "Q"
     let n3 := linenumber defaultSettings ⟨pos2.LINENR, ts⟩
     let n4 := linenumber defaultSettings n3.2
     let n5 := linenumber defaultSettings n4.2
     let T := n1.1 ++ "G95\n"
              ++ (if ps1 = "" then "" else n2.1 ++ "G00" ++ ps1 ++ "\n")
              ++ "M29 S" ++ intStr ts ++ "\n"
              ++ n3.1 ++ "G84" ++ ps2 ++ "\n" ++ n4.1 ++ "G80\n" ++ n5.1 ++ "G94\n"
     processCommand defaultSettings tapLeaf tapCmd "" tapSt =
       .ok ⟨tapSt.out.append T, tapSt.lastcommand, tapSt.loc, n5.2⟩ ∧
     hasG8d '1' T.data = false ∧ hasG8d '3' T.data = false) :=
  ⟨⟨Or.inl rfl, rfl⟩, c1_tap_rewrite _ _ _ _ _ (Or.inl rfl) rfl⟩

theorem processCommand_tap (S : Settings) (lf : Leaf) (c : Command) (next : String)
    (st : PState)
    (hname : c.Name = "G81" ∨ c.Name = "G83")
    (htool : lf.TCToolType = some "Tap") :
    processCommand S lf c next st = .ok (tapRewrite S c st) := by
  rcases hname with h | h <;> simp [processCommand, h, htool]

/-- C6 (amended): inside the tap-cycle rewrite with line numbering
enabled, the G95, G00, G84, G80 and G94 lines are each prefixed with
`N` and a counter that is incremented by 5 before every prefix — the
first prefixed line carries the configured value plus 5, not the
configured value itself — but the `M29` tap-start line is emitted with
no line-number prefix at all (source line 510 bypasses
`linenumber()`). -/
theorem c6_amended (S : Settings) (lf : Leaf) (c : Command) (next : String)
    (st : PState)
    (hname : c.Name = "G81" ∨ c.Name = "G83")
    (htool : lf.TCToolType = some "Tap")
    (hL : S.OUTPUT_LINE_NUMBERS = true) :
    (let L := st.g.LINENR
     let ps1 := axisChunk S c st.loc "X" ++ axisChunk S c st.loc "Y"
     let ts : ℤ := match getP c.Parameters "S" with
                   | some v => pyTrunc v
                   | none => st.g.tapSpeed
     let ps2 := ps1 ++ axisChunk S c st.loc "Z" ++ axisChunk S c st.loc "R"
                ++ convChunk S c "F" ++ convChunk S c "P" ++ convChunk S c "Q"
     let base : ℤ := if ps1 = "" then L + 5 else L + 10
     let T := "N" ++ intStr (L + 5) ++ " " ++ "G95\n"
              ++ (if ps1 = "" then ""
                  else "N" ++ intStr (L + 10) ++ " " ++ "G00" ++ ps1 ++ "\n")
              ++ "M29 S" ++ intStr ts ++ "\n"
              ++ "N" ++ intStr (base + 5) ++ " " ++ "G84" ++ ps2 ++ "\n"
              ++ "N" ++ intStr (base + 10) ++ " " ++ "G80\n"
              ++ "N" ++ intStr (base + 15) ++ " " ++ "G94\n"
     processCommand S lf c next st =
       .ok ⟨st.out.append T, st.lastcommand, st.loc, ⟨base + 15, ts⟩⟩) := by
  dsimp only
  rw [processCommand_tap S lf c next st hname htool]
  unfold tapRewrite
  dsimp only
  by_cases hps : (axisChunk S c st.loc "X" ++ axisChunk S c st.loc "Y") = ""
  · rw [if_pos hps, if_pos hps, if_pos hps]
    rcases hS : getP c.Parameters "S" with _ | v <;>
      simp only [hS, linenumber, hL, if_true, strAppend_empty, strEmpty_append,
        pyBufAppend_append, String.append_assoc,
        show st.g.LINENR + 5 + 5 = st.g.LINENR + 10 from by omega,
        show st.g.LINENR + 10 + 5 = st.g.LINENR + 15 from by omega,
        show st.g.LINENR + 15 + 5 = st.g.LINENR + 20 from by omega,
        show st.g.LINENR + 5 + 10 = st.g.LINENR + 15 from by omega,
        show st.g.LINENR + 5 + 15 = st.g.LINENR + 20 from by omega]
  · rw [if_neg hps, if_neg hps, if_neg hps]
    rcases hS : getP c.Parameters "S" with _ | v <;>
      simp only [hS, linenumber, hL, if_true,
        pyBufAppend_append, String.append_assoc,
        show st.g.LINENR + 5 + 5 = st.g.LINENR + 10 from by omega,
        show st.g.LINENR + 10 + 5 = st.g.LINENR + 15 from by omega,
        show st.g.LINENR + 15 + 5 = st.g.LINENR + 20 from by omega,
        show st.g.LINENR + 20 + 5 = st.g.LINENR + 25 from by omega,
        show st.g.LINENR + 10 + 10 = st.g.LINENR + 20 from by omega,
        show st.g.LINENR + 10 + 15 = st.g.LINENR + 25 from by omega]

/-- C6 (counterexample): with line numbers enabled, the tap rewrite of
`G81 X5 Z-10 F1.5` emits the line `M29 S0`, which is not a bare
comment line and is not prefixed with `N` — refuting the claim that
every non-comment emitted line is so prefixed. -/
theorem c6_counterexample :
    parseLeaf lnSettings tapLeaf ⟨5, 0⟩ =
      .ok (.str "N10 G95\nN15 G00 X5.000\nM29 S0\nN20 G84 X5.000 Z-10.000 F1.500\nN25 G80\nN30 G94\n",
           ⟨30, 0⟩) ∧
    (pySplitlines false
      "N10 G95\nN15 G00 X5.000\nM29 S0\nN20 G84 X5.000 Z-10.000 F1.500\nN25 G80\nN30 G94\n")[2]? =
      some "M29 S0" ∧
    firstIsParen "M29 S0" = false ∧
    ("M29 S0" : String).data.head? ≠ some 'N' := by
  refine ⟨by decide, by decide, rfl, by decide⟩

theorem c6_witness :
    ((tapCmd.Name = "G81" ∨ tapCmd.Name = "G83") ∧ tapLeaf.TCToolType = some "Tap" ∧
     lnSettings.OUTPUT_LINE_NUMBERS = true) ∧
    (let L := tapSt6.g.LINENR
     let ps1 := axisChunk lnSettings tapCmd tapSt6.loc "X" ++
                axisChunk lnSettings tapCmd tapSt6.loc "Y"
     let ts : ℤ := match getP tapCmd.Parameters "S" with
                   | some v => pyTrunc v
                   | none => tapSt6.g.tapSpeed
     let ps2 := ps1 ++ axisChunk lnSettings tapCmd tapSt6.loc "Z" ++
                axisChunk lnSettings tapCmd tapSt6.loc "R"
                ++ convChunk lnSettings tapCmd "F" ++ convChunk lnSettings tapCmd "P"
                ++ convChunk lnSettings tapCmd "Q"
     let base : ℤ := if ps1 = "" then L + 5 else L + 10
     let T := "N" ++ intStr (L + 5) ++ " " ++ "G95\n"
              ++ (if ps1 = "" then ""
                  else "N" ++ intStr (L + 10) ++ " " ++ "G00" ++ ps1 ++ "\n")
              ++ "M29 S" ++ intStr ts ++ "\n"
              ++ "N" ++ intStr (base + 5) ++ " " ++ "G84" ++ ps2 ++ "\n"
              ++ "N" ++ intStr (base + 10) ++ " " ++ "G80\n"
              ++ "N" ++ intStr (base + 15) ++ " " ++ "G94\n"
     processCommand lnSettings tapLeaf tapCmd "" tapSt6 =
       .ok ⟨tapSt6.out.append T, tapSt6.lastcommand, tapSt6.loc, ⟨base + 15, ts⟩⟩) :=
  ⟨⟨Or.inl rfl, rfl, rfl⟩, c6_amended _ _ _ _ _ (Or.inl rfl) rfl rfl⟩

theorem textPart_mapRet (f : EmitState → EmitState) (r : PyRet) :
    (mapRet f r).textPart = r.textPart := by
  cases r <;> rfl

theorem linenumber_off {S : Settings} (hL : S.OUTPUT_LINE_NUMBERS = false)
    (g : EmitState) : linenumber S g = ("", g) := by
  simp [linenumber, hL]

theorem emitBlock_setL {S : Settings} (hL : S.OUTPUT_LINE_NUMBERS = false)
    (buf : PyBuf) (toks : List String) (L : ℤ) (g : EmitState) :
    emitBlock S buf toks (setL L g) =
      (emitBlock S buf toks g).map (fun r => (r.1, setL L r.2)) := by
  unfold emitBlock
  cases toks with
  | nil => rfl
  | cons w ws =>
    simp only [hL, false_and, if_false, ite_false, Bool.false_eq_true]
    split
    · rfl
    · rfl

theorem tapRewrite_setL {S : Settings} (hL : S.OUTPUT_LINE_NUMBERS = false)
    (c : Command) (L : ℤ) (st : PState) :
    tapRewrite S c (setLP L st) = setLP L (tapRewrite S c st) := by
  unfold tapRewrite
  by_cases hps : (axisChunk S c st.loc "X" ++ axisChunk S c st.loc "Y") = "" <;>
    rcases hS : getP c.Parameters "S" with _ | v <;>
    simp [hS, hps, linenumber_off hL, setLP, setL]

theorem setLP_out (L : ℤ) (st : PState) : (setLP L st).out = st.out := rfl

theorem setLP_last (L : ℤ) (st : PState) : (setLP L st).lastcommand = st.lastcommand := rfl

theorem setLP_loc (L : ℤ) (st : PState) : (setLP L st).loc = st.loc := rfl

theorem setLP_g (L : ℤ) (st : PState) : (setLP L st).g = setL L st.g := rfl

theorem setL_tap (L : ℤ) (g : EmitState) : (setL L g).tapSpeed = g.tapSpeed := rfl

theorem tcFoldOff_snd (lines : List String) (b : PyBuf) (g : EmitState) :
    (lines.foldl (fun (p : PyBuf × EmitState) line =>
      (p.1.append ("" ++ line), p.2)) (b, g)).2 = g := by
  induction lines generalizing b with
  | nil => rfl
  | cons l ls ih =>
    simp only [List.foldl_cons]
    exact ih _

theorem tcFoldOff_fst (lines : List String) (b : PyBuf) (g g2 : EmitState) :
    (lines.foldl (fun (p : PyBuf × EmitState) line =>
      (p.1.append ("" ++ line), p.2)) (b, g)).1 =
    (lines.foldl (fun (p : PyBuf × EmitState) line =>
      (p.1.append ("" ++ line), p.2)) (b, g2)).1 := by
  induction lines generalizing b with
  | nil => rfl
  | cons l ls ih =>
    simp only [List.foldl_cons]
    exact ih _

theorem m6Block_setL {S : Settings} (hL : S.OUTPUT_LINE_NUMBERS = false)
    (c : Command) (loc' : CurrLoc) (L : ℤ) (st : PState) :
    m6Block S c loc' (setLP L st) = (m6Block S c loc' st).map (setLP L) := by
  unfold m6Block
  simp only [setLP_out, setLP_g, linenumber_off hL]
  rw [tcFoldOff_fst _ _ (setL L st.g) st.g]
  rw [tcFoldOff_snd, tcFoldOff_snd]
  rcases hT : getP c.Parameters "T" with _ | t
  · rfl
  · dsimp only
    split <;> rfl

theorem mainPath_setL {S : Settings} (hL : S.OUTPUT_LINE_NUMBERS = false)
    (c : Command) (next : String) (L : ℤ) (st : PState) :
    mainPath S c next (setLP L st) = (mainPath S c next st).map (setLP L) := by
  unfold mainPath
  simp only [setLP_out, setLP_last, setLP_loc, setLP_g]
  by_cases h80 : c.Name = "G80" ∧ st.lastcommand = some next
  · simp [h80, setLP, Except.map]
  · by_cases hcm : firstIsParen c.Name = true ∧ S.OUTPUT_COMMENTS = false
    · simp [h80, hcm, setLP, Except.map]
    · rw [if_neg h80, if_neg h80, if_neg hcm, if_neg hcm]
      by_cases hm6 : c.Name = "M6"
      · rw [if_pos hm6, if_pos hm6]
        exact m6Block_setL hL c _ L st
      · rw [if_neg hm6, if_neg hm6]
        by_cases hmsg : c.Name = "message"
        · rw [if_pos hmsg, if_pos hmsg]
          by_cases hoc : S.OUTPUT_COMMENTS = false
          · rw [if_pos hoc, if_pos hoc]
            rw [emitBlock_setL hL]
            rcases hE : emitBlock S (PyBuf.list []) _ st.g with e | r <;>
              simp [hE, Except.map, setLP]
          · rw [if_neg hoc, if_neg hoc]
            split
            · rename_i heq
              rw [heq]
              rfl
            · rename_i w0 rest heq
              rw [heq]
              rw [emitBlock_setL hL]
              rcases hE : emitBlock S st.out rest st.g with e | r <;>
                simp [hE, Except.map, setLP]
        · rw [if_neg hmsg, if_neg hmsg]
          rw [emitBlock_setL hL]
          rcases hE : emitBlock S st.out _ st.g with e | r <;>
            simp [hE, Except.map, setLP]

theorem processCommand_setL {S : Settings} (hL : S.OUTPUT_LINE_NUMBERS = false)
    (lf : Leaf) (c : Command) (next : String) (L : ℤ) (st : PState) :
    processCommand S lf c next (setLP L st) =
      (processCommand S lf c next st).map (setLP L) := by
  unfold processCommand
  simp only [setLP_out, setLP_last, setLP_loc, setLP_g]
  by_cases hfix : lf.Label = "Fixture" ∧ c.Name = "G0"
  · simp [hfix, Except.map]
  · rw [if_neg hfix, if_neg hfix]
    by_cases hm3 : c.Name = "M03" ∨ c.Name = "M3"
    · rw [if_pos hm3, if_pos hm3]
      rcases hts : lf.ToolShapeName with _ | sn
      · rfl
      · dsimp only
        by_cases hsn : sn = "tap"
        · simp [hsn, setLP, setL, Except.map]
        · rw [if_neg hsn, if_neg hsn]
          by_cases htap : (c.Name = "G81" ∨ c.Name = "G83") ∧ lf.TCToolType = some "Tap"
          · rw [if_pos htap, if_pos htap, tapRewrite_setL hL]
            rfl
          · rw [if_neg htap, if_neg htap]
            exact mainPath_setL hL c next L st
    · rw [if_neg hm3, if_neg hm3]
      by_cases htap : (c.Name = "G81" ∨ c.Name = "G83") ∧ lf.TCToolType = some "Tap"
      · rw [if_pos htap, if_pos htap, tapRewrite_setL hL]
        rfl
      · rw [if_neg htap, if_neg htap]
        exact mainPath_setL hL c next L st

theorem runCommands_setL {S : Settings} (hL : S.OUTPUT_LINE_NUMBERS = false)
    (lf : Leaf) (cmds : List Command) (L : ℤ) (st : PState) :
    runCommands S lf cmds (setLP L st) = (runCommands S lf cmds st).map (setLP L) := by
  induction cmds generalizing st with
  | nil => rfl
  | cons c rest ih =>
    simp only [runCommands]
    rw [processCommand_setL hL]
    rcases hP : processCommand S lf c _ st with e | st' <;> simp only [hP, Except.map]
    exact ih st'

theorem parseLeaf_setL {S : Settings} (hL : S.OUTPUT_LINE_NUMBERS = false)
    (lf : Leaf) (L : ℤ) (g : EmitState) :
    parseLeaf S lf (setL L g) = (parseLeaf S lf g).map (fun r => (r.1, setL L r.2)) := by
  unfold parseLeaf
  have hinit : (⟨.str "", none, seedLoc, setL L g⟩ : PState) =
      setLP L ⟨.str "", none, seedLoc, g⟩ := rfl
  rw [hinit, runCommands_setL hL]
  rcases h : runCommands S lf lf.commands ⟨.str "", none, seedLoc, g⟩ with e | st' <;>
    simp [h, Except.map, setLP]

theorem parsePObj_setL {S : Settings} (hL : S.OUTPUT_LINE_NUMBERS = false)
    (o : PObj) (L : ℤ) (g : EmitState) :
    parsePObj S o (setL L g) = (parsePObj S o g).map (fun r => (r.1, setL L r.2)) := by
  cases o with
  | nonpath n => rfl
  | leaf lf =>
    unfold parsePObj
    dsimp only
    rw [parseLeaf_setL hL]
    rcases h : parseLeaf S lf g with e | r
    · simp [Except.map]
    · rcases r with ⟨buf, g'⟩
      cases buf <;> simp [Except.map]

theorem lnFold_setL {S : Settings} (hL : S.OUTPUT_LINE_NUMBERS = false)
    (b : Bool) (lines : List String) (o : String) (L : ℤ) (g : EmitState) :
    lnFold S b lines (o, setL L g) =
      ((lnFold S b lines (o, g)).1, setL L (lnFold S b lines (o, g)).2) := by
  induction lines generalizing o g with
  | nil => rfl
  | cons l ls ih =>
    simp only [lnFold, List.foldl_cons, linenumber_off hL] at ih ⊢
    exact ih _ _

theorem coolantOn_setL {S : Settings} (hL : S.OUTPUT_LINE_NUMBERS = false)
    (o : PObj) (x : String) (L : ℤ) (g : EmitState) :
    coolantOn S o (x, setL L g) =
      ((coolantOn S o (x, g)).1, setL L (coolantOn S o (x, g)).2) := by
  unfold coolantOn
  by_cases hF : effCoolant o = "Flood" <;> by_cases hM : effCoolant o = "Mist" <;>
    simp [hF, hM, linenumber_off hL]

theorem coolantOff_setL {S : Settings} (hL : S.OUTPUT_LINE_NUMBERS = false)
    (o : PObj) (x : String) (L : ℤ) (g : EmitState) :
    coolantOff S o (x, setL L g) =
      ((coolantOff S o (x, g)).1, setL L (coolantOff S o (x, g)).2) := by
  unfold coolantOff
  by_cases hN : effCoolant o ≠ "None" <;> simp [hN, linenumber_off hL]

theorem exportObject_setL {S : Settings} (hL : S.OUTPUT_LINE_NUMBERS = false)
    (o : PObj) (L : ℤ) (g : EmitState) :
    exportObject S o (setL L g) =
      (exportObject S o g).map (fun r => (r.1, setL L r.2)) := by
  unfold exportObject
  by_cases hA : objActive o = some false
  · simp [hA, Except.map]
  · rw [if_neg hA, if_neg hA]
    by_cases hB : objBaseActive o = some false
    · simp [hB, Except.map]
    · rw [if_neg hB, if_neg hB]
      dsimp only
      rw [lnFold_setL hL, coolantOn_setL hL, parsePObj_setL hL]
      rcases hP : parsePObj S o (coolantOn S o
          (lnFold S false (pySplitlines true S.PRE_OPERATION) (opComments S o, g))).2
        with e | r
      · simp [Except.map]
      · rcases r with ⟨ptxt, g4⟩
        simp only [Except.map]
        rw [lnFold_setL hL, coolantOff_setL hL]

theorem exportLoop_setL {S : Settings} (hL : S.OUTPUT_LINE_NUMBERS = false)
    (objs : List PObj) (a : String) (L : ℤ) (g : EmitState) :
    exportLoop S objs (a, setL L g) =
      (exportLoop S objs (a, g)).map (fun r => (r.1, setL L r.2)) := by
  induction objs generalizing a g with
  | nil => rfl
  | cons o rest ih =>
    simp only [exportLoop]
    rw [exportObject_setL hL]
    rcases hO : exportObject S o g with e | r <;> simp only [hO, Except.map]
    exact ih _ _

theorem exportM_setL (argstring : String) (objs : List PObj) (nowStr : String)
    {S : Settings} (hS : processArgumentsM argstring = .ok S)
    (hL : S.OUTPUT_LINE_NUMBERS = false) (L : ℤ) (g : EmitState) :
    exportM argstring objs nowStr (setL L g) =
      mapRet (setL L) (exportM argstring objs nowStr g) := by
  unfold exportM
  rw [hS]
  dsimp only
  by_cases hnp : objs.any (fun o => !(hasPathAttr o)) = true
  · simp [hnp, mapRet]
  · rw [if_neg hnp, if_neg hnp]
    rw [lnFold_setL hL]
    simp only [linenumber_off hL]
    cases objs with
    | nil => rfl
    | cons o os =>
      rw [exportLoop_setL hL]
      rcases hLoop : exportLoop S (o :: os)
          ((lnFold S true (pySplitlines false S.PREAMBLE) (headerText S nowStr, g)).1
            ++ "" ++ S.UNITS ++ "\n",
           (lnFold S true (pySplitlines false S.PREAMBLE) (headerText S nowStr, g)).2)
        with e | r
      · simp [Except.map, mapRet]
      · rcases r with ⟨body, g3⟩
        simp only [Except.map]
        rw [lnFold_setL hL]
        rfl

/-- C5 (counterexample): two successive `export` calls on the same
inputs with `--no-header --line-numbers` produce different text — the
second call's line numbers continue from the final counter value of
the first call, because the module-level `LINENR` is never reset. -/
theorem c5_counterexample : c5run1.textPart ≠ c5run2.textPart := by decide

/-- C5 (amended): the emission state is NOT reset at the start of an
export call — `LINENR` and `tapSpeed` persist in module scope (only
`lastcommand` and `currLocation` are rebuilt per `parse`).  What does
hold: with line numbering disabled the produced text is independent of
the incoming line-number counter, so two export calls on the same
inputs yield identical text whenever their incoming carried tap speeds
agree. -/
theorem c5_amended (argstring : String) (objs : List PObj) (nowStr : String)
    (S : Settings) (hS : processArgumentsM argstring = .ok S)
    (hL : S.OUTPUT_LINE_NUMBERS = false)
    (g g' : EmitState) (ht : g.tapSpeed = g'.tapSpeed) :
    (exportM argstring objs nowStr g).textPart =
      (exportM argstring objs nowStr g').textPart := by
  have hg : g' = setL g'.LINENR g := by
    cases g; cases g'
    simp only [setL] at ht ⊢
    rw [ht]
  rw [hg, exportM_setL argstring objs nowStr hS hL, textPart_mapRet]

theorem c5_witness :
    processArgumentsM "" = .ok (applyArgs defaultArgs) ∧
    (applyArgs defaultArgs).OUTPUT_LINE_NUMBERS = false ∧
    (⟨5, 0⟩ : EmitState).tapSpeed = (⟨123, 0⟩ : EmitState).tapSpeed ∧
    (exportM "" [.leaf demoLeaf] "" ⟨5, 0⟩).textPart =
      (exportM "" [.leaf demoLeaf] "" ⟨123, 0⟩).textPart :=
  ⟨by decide, rfl, rfl,
   c5_amended "" [.leaf demoLeaf] "" (applyArgs defaultArgs) (by decide) rfl
     ⟨5, 0⟩ ⟨123, 0⟩ rfl⟩
